import Mathlib

/-!
# Verification of the goapi user service (pytsx/goapi)

Shallow embedding of the Go sources:

* `model/user.go`        — the `User` record.
* `repository/user_repo.go` — `UserRepository.GetUsers`, `CreateUser`, `GetUser`.
* `usecase` (user_usecase.go) — `UserUsecase`, a pass-through layer.
* `controller` (user_controller.go) — the Gin handlers.
* `cmd/api/main.go`      — the `/ping` handler.

The relational store and the `database/sql` driver are modelled as an explicit
state `DB`. SQL executes against tables keyed by name: the create statement
of the source inserts into a table named `user` (columns `user_name`,
`user_email`, `user_imgurl`, serial `user_id`), while both read statements
select from a table named `users` (columns `id`, `name`, `email`, `img_url`);
the two tables are therefore separate fields of the state, exactly as a SQL
engine keyed by table name would keep them. Rows are modelled at the
four-column shape the application scans (`id`, `name`, `email`, `img_url`).

Failure injection: `prepFault` makes the next `Prepare` fail and `fault`
makes the next query / row-scan fail, modelling connectivity failures,
constraint violations and decode failures of the driver. The source's
`GetUsers` returns the same value (`[]model.User{}` plus the error) on its
query-error path and on its row-scan-error path, so the two are represented
by the single `fault` injection.

Ghost instrumentation (not observable by the Go program itself):
`openStmts` counts prepared statements that have not been closed, and
`calls` counts invocations of repository operations; they let statement
lifecycle and "no store call is made" be stated as theorems.

HTTP responses carry their JSON body as an explicit `Json` tree, so that
Gin's serialization (`null` for a nil slice, `[]` for an empty non-nil
slice, the empty object for a Go error value with no exported fields) is a
mathematical object rather than a string.
-/

/-- `model.User` (model/user.go): JSON keys `user_id`, `name`, `email`,
`img_url`. Go `int` is modelled as `Int`. -/
structure User where
  ID : Int
  Name : String
  Email : String
  ImgURL : String
deriving DecidableEq, Repr

/-- Errors surfaced by the `database/sql` driver layer.
`errNoRows` is `sql.ErrNoRows` (returned by `Row.Scan` when the query
matched no row); `errConnDone` is `sql.ErrConnDone`; `generic msg` stands
for any other error value created in the standard-library style
(`errors.New` / `fmt.Errorf`), carrying only an unexported message string. -/
inductive DbError where
  | errNoRows
  | errConnDone
  | generic (msg : String)
deriving DecidableEq, Repr

/-- `err.Error()` — the raw message of the error value. The two sentinel
messages are the ones the `database/sql` package defines. -/
def errMessage : DbError → String
  | DbError.errNoRows => "sql: no rows in result set"
  | DbError.errConnDone => "sql: connection is already closed"
  | DbError.generic m => m

/-- A Go slice of `α`. Go distinguishes the nil slice (`var s []T`) from a
non-nil slice (`[]T\x7b\x7d`, or any slice produced by `append`): they compare
differently against `nil` and serialize differently to JSON. -/
inductive GoSlice (α : Type) where
  | nil : GoSlice α
  | mk : List α → GoSlice α
deriving DecidableEq, Repr

/-- The elements of a Go slice. -/
def GoSlice.toList {α : Type} : GoSlice α → List α
  | GoSlice.nil => []
  | GoSlice.mk l => l

/-- Go `append(s, a)`: always yields a non-nil slice. -/
def GoSlice.push {α : Type} (s : GoSlice α) (a : α) : GoSlice α :=
  GoSlice.mk (s.toList ++ [a])

/-- JSON values, the codomain of Gin's `ctx.JSON` serialization. -/
inductive Json where
  | null
  | str (s : String)
  | int (n : Int)
  | arr (elems : List Json)
  | obj (fields : List (String × Json))
deriving Repr

/-- `encoding/json` marshaling of a `model.User` value, per the struct tags
of model/user.go. -/
def User.toJson (u : User) : Json :=
  Json.obj [("user_id", Json.int u.ID), ("name", Json.str u.Name),
            ("email", Json.str u.Email), ("img_url", Json.str u.ImgURL)]

/-- `encoding/json` marshaling of a `[]model.User` value: the nil slice
marshals to `null`, a non-nil slice to an array. -/
def GoSlice.toJson (s : GoSlice User) : Json :=
  match s with
  | GoSlice.nil => Json.null
  | GoSlice.mk l => Json.arr (l.map User.toJson)

/-- `encoding/json` marshaling of a Go error value. The error values this
model ranges over (the `database/sql` sentinels and `errors.New`-style
values) expose no exported struct fields, so they marshal to the empty JSON
object: the message is not serialized. -/
def errToJson (_ : DbError) : Json :=
  Json.obj []

/-- Modelled from the spec: `model/response.go` is not among the sources,
but the spec describes `Response` as "a single human-readable `message`
field" and the repository README shows its wire shape as an object with a
lowercase `message` key. -/
def responseToJson (message : String) : Json :=
  Json.obj [("message", Json.str message)]

/-- The state of the store and driver. `userRows`/`userNextId` belong to
the table named `user` (target of the insert statement); `usersRows` is the
table named `users` (target of both select statements). `prepFault` and
`fault` inject driver failures; `openStmts` and `calls` are ghost
instrumentation (see the file header). -/
structure DB where
  userRows : List User
  usersRows : List User
  userNextId : Int
  prepFault : Option DbError
  fault : Option DbError
  openStmts : Nat
  calls : Nat
deriving DecidableEq, Repr

/-- `connection.Prepare(...)`: fails iff a prepare fault is injected;
on success one more statement is open. -/
def dbPrepare (db : DB) : Option DbError × DB :=
  match db.prepFault with
  | some e => (some e, { db with prepFault := none })
  | none => (none, { db with openStmts := db.openStmts + 1 })

/-- `stmt.Close()`. -/
def stmtClose (db : DB) : DB :=
  { db with openStmts := db.openStmts - 1 }

/-- Executing `INSERT INTO user (user_name, user_email, user_imgurl)
VALUES ($1,$2,$3) RETURNING user_id` and scanning the returned id: on
success a row with the store-assigned serial id is appended to the `user`
table and that id is returned. -/
def insertUserExec (db : DB) (u : User) : Except DbError Int × DB :=
  match db.fault with
  | some e => (Except.error e, { db with fault := none })
  | none =>
      let id := db.userNextId
      (Except.ok id,
       { db with userRows := db.userRows ++ [{ u with ID := id }],
                 userNextId := id + 1 })

/-- Executing `SELECT * FROM users WHERE id = $1` and scanning the single
row: when no row of the `users` table has the requested id, `Row.Scan`
yields `sql.ErrNoRows`. -/
def selectUserExec (db : DB) (id : Int) : Except DbError User × DB :=
  match db.fault with
  | some e => (Except.error e, { db with fault := none })
  | none =>
      match db.usersRows.filter (fun r => r.ID = id) with
      | [] => (Except.error DbError.errNoRows, db)
      | r :: _ => (Except.ok r, db)

/-- Executing `SELECT id, name, email, img_url FROM users` (no statement is
prepared for this query in the source): returns all rows of the `users`
table, or the injected fault. -/
def queryUsersExec (db : DB) : Except DbError (List User) × DB :=
  match db.fault with
  | some e => (Except.error e, { db with fault := none })
  | none => (Except.ok db.usersRows, db)

/-- `UserRepository.GetUsers` (repository/user_repo.go, lines 20-49).
On a query or row-scan error the source returns `[]model.User\x7b\x7d` (the
empty non-nil slice) together with the error; on success it returns the
slice built by `append` from the nil slice `usersList` — which is still the
nil slice when the table has no rows. -/
def UserRepository.GetUsers (db0 : DB) : (GoSlice User × Option DbError) × DB :=
  let db := { db0 with calls := db0.calls + 1 }
  match queryUsersExec db with
  | (Except.error e, db1) => ((GoSlice.mk [], some e), db1)
  | (Except.ok rows, db1) =>
      ((rows.foldl GoSlice.push GoSlice.nil, none), db1)

/-- `UserRepository.CreateUser` (repository/user_repo.go, lines 51-68).
Note the source calls `query.Close()` only after a successful
`QueryRow(...).Scan(&id)`: on the scan-error path the prepared statement is
returned from without being closed. -/
def UserRepository.CreateUser (db0 : DB) (user : User) :
    (Int × Option DbError) × DB :=
  let db := { db0 with calls := db0.calls + 1 }
  match dbPrepare db with
  | (some e, db1) => ((-1, some e), db1)
  | (none, db1) =>
      match insertUserExec db1 user with
      | (Except.error e, db2) => ((-1, some e), db2)
      | (Except.ok id, db2) => ((id, none), stmtClose db2)

/-- `UserRepository.GetUser` (repository/user_repo.go, lines 70-95).
The source compares the scan error against `sql.ErrConnDone` — not against
`sql.ErrNoRows` — and returns `(nil, nil)` (the not-found signal) exactly
for `ErrConnDone`; every other scan error, including the `ErrNoRows`
produced by a zero-row match, is returned as an error. `query.Close()` is
reached only on the success path. -/
def UserRepository.GetUser (db0 : DB) (id : Int) :
    (Option User × Option DbError) × DB :=
  let db := { db0 with calls := db0.calls + 1 }
  match dbPrepare db with
  | (some e, db1) => ((none, some e), db1)
  | (none, db1) =>
      match selectUserExec db1 id with
      | (Except.error e, db2) =>
          if e = DbError.errConnDone then ((none, none), db2)
          else ((none, some e), db2)
      | (Except.ok u, db2) => ((some u, none), stmtClose db2)

/-- `UserUsecase.GetUsers` (usecase layer): a direct pass-through. -/
def UserUsecase.GetUsers (db : DB) : (GoSlice User × Option DbError) × DB :=
  UserRepository.GetUsers db

/-- `UserUsecase.CreateUser` (usecase layer): on repository error returns
the zero-valued `model.User\x7b\x7d` with the same error; on success copies the
store-assigned id onto the input and returns it. -/
def UserUsecase.CreateUser (db : DB) (user : User) :
    (User × Option DbError) × DB :=
  match UserRepository.CreateUser db user with
  | ((_, some e), db1) =>
      (({ ID := 0, Name := "", Email := "", ImgURL := "" }, some e), db1)
  | ((uid, none), db1) => (({ user with ID := uid }, none), db1)

/-- `UserUsecase.GetUser` (usecase layer): a direct pass-through. -/
def UserUsecase.GetUser (db : DB) (id : Int) :
    (Option User × Option DbError) × DB :=
  UserRepository.GetUser db id

/-- An HTTP response as produced by `ctx.JSON(status, body)`. -/
structure HttpResponse where
  status : Nat
  body : Json
deriving Repr

/-- `UserController.GetUsers` (controller layer): on error 500 with
`gin.H\x7b"error": err.Error()\x7d`; on success 200 with the serialized slice. -/
def UserController.GetUsers (db : DB) : HttpResponse × DB :=
  match UserUsecase.GetUsers db with
  | ((_, some e), db1) =>
      (⟨500, Json.obj [("error", Json.str (errMessage e))]⟩, db1)
  | ((products, none), db1) => (⟨200, products.toJson⟩, db1)

/-- `UserController.CreateUser` (controller layer). `bindResult` is the
outcome of `ctx.BindJSON(&user)`: `Except.error j` carries the JSON
marshaling of the bind error value (the source passes that error value to
`ctx.JSON(http.StatusBadRequest, err)`); on a usecase error the source
passes the error value itself to `ctx.JSON(http.StatusInternalServerError,
err)`. -/
def UserController.CreateUser (db : DB) (bindResult : Except Json User) :
    HttpResponse × DB :=
  match bindResult with
  | Except.error errJson => (⟨400, errJson⟩, db)
  | Except.ok user =>
      match UserUsecase.CreateUser db user with
      | ((_, some e), db1) => (⟨500, errToJson e⟩, db1)
      | ((insertedUser, none), db1) => (⟨201, insertedUser.toJson⟩, db1)

/-- `strconv.Atoi`: an optional single sign followed by at least one
decimal digit, rejecting anything else, and rejecting values outside the
64-bit signed range (on which `Atoi` reports `ErrRange`). -/
def goAtoi (s : String) : Option Int :=
  match s.data with
  | [] => none
  | c :: rest =>
      let (neg, digits) :=
        if c = '-' then (true, rest)
        else if c = '+' then (false, rest)
        else (false, c :: rest)
      if digits = [] then none
      else if digits.all (fun d => '0' ≤ d ∧ d ≤ '9') then
        let n : Nat := digits.foldl (fun acc d => 10 * acc + (d.toNat - 48)) 0
        let v : Int := if neg then -(n : Int) else (n : Int)
        if -(2 ^ 63) ≤ v ∧ v < 2 ^ 63 then some v else none
      else none

/-- `UserController.GetUser` (controller layer): empty path parameter →
400 with the "parâmetro" message; non-numeric → 400 with the "numérico"
message; usecase error → 500 with the marshaled error value; `nil` user →
404 with the "Nenhum usuário" message; otherwise 200 with the user. -/
def UserController.GetUser (db : DB) (id : String) : HttpResponse × DB :=
  if id = "" then
    (⟨400, responseToJson "Essa rota espera receber um id como parâmetro"⟩, db)
  else
    match goAtoi id with
    | none =>
        (⟨400, responseToJson "Essa rota espera receber um id numérico"⟩, db)
    | some safeId =>
        match UserUsecase.GetUser db safeId with
        | ((_, some e), db1) => (⟨500, errToJson e⟩, db1)
        | ((none, none), db1) =>
            (⟨404,
              responseToJson "Nenhum usuário foi localizado com o id fornecido"⟩,
             db1)
        | ((some user, none), db1) => (⟨200, user.toJson⟩, db1)

/-- The `/ping` handler registered in cmd/api/main.go: it touches no layer
below Gin. -/
def pingHandler (db : DB) : HttpResponse × DB :=
  (⟨200, Json.obj [("message", Json.str "pong")]⟩, db)

/-- A store whose tables are empty, with no injected fault: the state of a
freshly created database. -/
def emptyDB : DB :=
  { userRows := [], usersRows := [], userNextId := 1, prepFault := none,
    fault := none, openStmts := 0, calls := 0 }

/-! ## Helper lemmas -/

/-- Characterization of the `append`-loop of `UserRepository.GetUsers`:
folding `append` over the scanned rows starting from the nil slice yields
the nil slice when there are no rows, and a non-nil slice of exactly the
rows otherwise. -/
theorem goSlice_foldl_push (l : List User) (s : GoSlice User) :
    l.foldl GoSlice.push s =
      (if l = [] then s else GoSlice.mk (s.toList ++ l)) := by
  induction l generalizing s with
  | nil => rfl
  | cons a t ih =>
      simp only [List.foldl_cons, ih, GoSlice.push, GoSlice.toList,
        List.cons_ne_self, if_false, reduceCtorEq]
      cases t with
      | nil => simp
      | cons b t2 => simp

/-! ## Claims -/

/-- C1: the claim states that when zero rows match the requested id the
data-access layer returns a not-found signal distinct from an error and the
handler answers 404 with the localized message, 500 being reserved for
other storage failures. The code instead compares the scan error against
`sql.ErrConnDone`: a zero-row match surfaces `sql.ErrNoRows`, which is
returned as an error and answered with 500, while a genuine `ErrConnDone`
connectivity failure is the one case answered with the 404 message. This
theorem evaluates the code at the failing input: `GET /user/999999` against
a store holding no such row. -/
theorem C1_zero_rows_yields_500_and_connDone_yields_404 :
    (UserRepository.GetUser emptyDB 999999).1 = (none, some DbError.errNoRows) ∧
    (UserController.GetUser emptyDB "999999").1 = ⟨500, Json.obj []⟩ ∧
    (UserRepository.GetUser { emptyDB with
        fault := some DbError.errConnDone } 1).1 = (none, none) ∧
    (UserController.GetUser { emptyDB with
        fault := some DbError.errConnDone } "1").1 =
      ⟨404, responseToJson "Nenhum usuário foi localizado com o id fornecido"⟩ :=
  ⟨rfl, rfl, rfl, rfl⟩

/-- C2: the claim states that after a successful create, fetching by the
returned id yields a record equal in all fields. In the code the insert
statement targets a table named `user` while the get-by-id select reads the
table named `users`, so the created row (id 1, visible in the `user` table
of the post-create state) is invisible to the fetch, which matches zero
rows and surfaces `sql.ErrNoRows` (a 500 at the endpoint) instead of the
record. This theorem evaluates the code on that round trip from the empty
store. -/
theorem C2_create_then_get_roundtrip_fails :
    (UserRepository.CreateUser emptyDB
        { ID := 0, Name := "John", Email := "john@example.com",
          ImgURL := "img" }).1 = (1, none) ∧
    (UserRepository.CreateUser emptyDB
        { ID := 0, Name := "John", Email := "john@example.com",
          ImgURL := "img" }).2.userRows =
      [{ ID := 1, Name := "John", Email := "john@example.com",
         ImgURL := "img" }] ∧
    (UserRepository.CreateUser emptyDB
        { ID := 0, Name := "John", Email := "john@example.com",
          ImgURL := "img" }).2.usersRows = [] ∧
    (UserRepository.GetUser
        (UserRepository.CreateUser emptyDB
          { ID := 0, Name := "John", Email := "john@example.com",
            ImgURL := "img" }).2 1).1 = (none, some DbError.errNoRows) ∧
    (UserController.GetUser
        (UserRepository.CreateUser emptyDB
          { ID := 0, Name := "John", Email := "john@example.com",
            ImgURL := "img" }).2 "1").1 = ⟨500, Json.obj []⟩ :=
  ⟨rfl, rfl, rfl, rfl, rfl⟩

/-- C3 counterexample: on the empty store the list endpoint returns 200
with body `null` — the repository's `usersList` is still the nil slice,
which marshals to JSON `null`, not to the empty array. Moreover a record
just created successfully is not reflected by the list (the insert goes to
the `user` table, the list reads `users`), so the body is still `null`
after a successful create. -/
theorem C3_counterexample_empty_list_is_null :
    (UserController.GetUsers emptyDB).1 = ⟨200, Json.null⟩ ∧
    Json.null ≠ Json.arr [] ∧
    (UserController.GetUsers
        (UserRepository.CreateUser emptyDB
          { ID := 0, Name := "Ana", Email := "ana@example.com",
            ImgURL := "" }).2).1 = ⟨200, Json.null⟩ :=
  ⟨rfl, fun h => Json.noConfusion h, rfl⟩

/-- C3 amended: the list operation returns exactly the rows of the `users`
read table, in order (records inserted by create go to the separately named
`user` table and are not reflected); when the `users` table holds no rows
the repository returns the nil slice, which the endpoint serializes as JSON
`null`, not as an empty array. The returned state differs from the input
state only in the ghost call counter. -/
theorem C3_list_returns_users_table (db : DB) (h : db.fault = none) :
    UserController.GetUsers db =
      (⟨200, if db.usersRows = [] then Json.null
             else Json.arr (db.usersRows.map User.toJson)⟩,
       { db with calls := db.calls + 1 }) := by
  have hfold := goSlice_foldl_push db.usersRows GoSlice.nil
  simp only [UserController.GetUsers, UserUsecase.GetUsers,
    UserRepository.GetUsers, queryUsersExec, h, hfold]
  by_cases he : db.usersRows = [] <;>
    simp [he, GoSlice.toJson, GoSlice.toList]

/-- Witness for C3: the amended theorem applied to the empty store. -/
theorem C3_list_returns_users_table_witness :
    UserController.GetUsers emptyDB =
      (⟨200, if emptyDB.usersRows = [] then Json.null
             else Json.arr (emptyDB.usersRows.map User.toJson)⟩,
       { emptyDB with calls := emptyDB.calls + 1 }) :=
  C3_list_returns_users_table emptyDB rfl

/-- C9: the `/ping` handler answers 200 with body `{"message":"pong"}` on
every store state and returns the state unchanged — in particular the ghost
repository-call counter is unchanged, so no data-access call is made. -/
theorem C9_ping_always_pong (db : DB) :
    pingHandler db = (⟨200, Json.obj [("message", Json.str "pong")]⟩, db) :=
  rfl

/-- C4 counterexample: the create endpoint, failing with a connectivity
error from the driver (`driver: bad connection`, an `errors.New`-style
value), responds 500 — but its body is the JSON marshaling of the error
value, the empty object, which does not include the raw message: the
message is only ever included by the list endpoint, via
`gin.H\x7b"error": err.Error()\x7d`. -/
theorem C4_counterexample_create_500_body_omits_message :
    (UserController.CreateUser
        { emptyDB with fault := some (DbError.generic "driver: bad connection") }
        (Except.ok { ID := 0, Name := "Eve", Email := "eve@example.com",
                     ImgURL := "" })).1 = ⟨500, Json.obj []⟩ ∧
    Json.obj [] ≠
      Json.obj [("error", Json.str "driver: bad connection")] :=
  ⟨rfl, by simp⟩

/-- C4 amended: whenever a data-access operation fails with a storage
error not classified by the code as not-found (i.e. any error other than
`sql.ErrConnDone` at get-by-id), the endpoint responds 500; the list
endpoint's body is the object `\x7b"error": <raw message>\x7d`, while the create
and get-by-id endpoints serialize the raw Go error value itself, which for
error values without exported fields is the empty JSON object omitting the
message. -/
theorem C4_storage_error_gives_500 (db : DB) (e : DbError) (u : User)
    (s : String) (n : Int)
    (hf : db.fault = some e) (hp : db.prepFault = none)
    (hs : goAtoi s = some n) (hc : e ≠ DbError.errConnDone) :
    (UserController.GetUsers db).1 =
      ⟨500, Json.obj [("error", Json.str (errMessage e))]⟩ ∧
    (UserController.CreateUser db (Except.ok u)).1 = ⟨500, Json.obj []⟩ ∧
    (UserController.GetUser db s).1 = ⟨500, Json.obj []⟩ := by
  have h0 : goAtoi "" = none := rfl
  have hne : s ≠ "" := by
    intro h
    rw [h, h0] at hs
    exact Option.noConfusion hs
  refine ⟨?_, ?_, ?_⟩
  · simp [UserController.GetUsers, UserUsecase.GetUsers,
      UserRepository.GetUsers, queryUsersExec, hf]
  · simp [UserController.CreateUser, UserUsecase.CreateUser,
      UserRepository.CreateUser, dbPrepare, insertUserExec, hp, hf, errToJson]
  · simp [UserController.GetUser, hne, hs, UserUsecase.GetUser,
      UserRepository.GetUser, dbPrepare, selectUserExec, hp, hf, hc, errToJson]

/-- Witness for C4: the amended theorem applied to a store whose next
driver call fails with `driver: bad connection`, at path parameter "7". -/
theorem C4_storage_error_gives_500_witness :
    (UserController.GetUsers
        { emptyDB with
          fault := some (DbError.generic "driver: bad connection") }).1 =
      ⟨500, Json.obj [("error", Json.str "driver: bad connection")]⟩ ∧
    (UserController.CreateUser
        { emptyDB with
          fault := some (DbError.generic "driver: bad connection") }
        (Except.ok { ID := 0, Name := "Otto", Email := "otto@example.com",
                     ImgURL := "" })).1 = ⟨500, Json.obj []⟩ ∧
    (UserController.GetUser
        { emptyDB with
          fault := some (DbError.generic "driver: bad connection") } "7").1 =
      ⟨500, Json.obj []⟩ :=
  C4_storage_error_gives_500 _ (DbError.generic "driver: bad connection")
    { ID := 0, Name := "Otto", Email := "otto@example.com", ImgURL := "" }
    "7" 7 rfl rfl rfl (fun h => DbError.noConfusion h)

/-- C5 counterexample: on a create call whose row execution fails, the
prepared statement is not released — starting from a store with no open
statements, the failed call ends with one statement still open, because
the source reaches `query.Close()` only after a successful scan. -/
theorem C5_counterexample_failed_exec_leaks_statement :
    (({ emptyDB with
        fault := some (DbError.generic "driver: bad connection") } : DB)
      ).openStmts = 0 ∧
    (UserRepository.CreateUser
        { emptyDB with
          fault := some (DbError.generic "driver: bad connection") }
        { ID := 0, Name := "Bea", Email := "bea@example.com", ImgURL := "" }
      ).2.openStmts = 1 :=
  ⟨rfl, rfl⟩

/-- C5 amended: the prepared statement of create and get-by-id is released
only on the success path. When `Prepare` itself fails no statement exists,
but on every path where row execution or scanning fails — including
get-by-id's zero-row (`ErrNoRows`) and `ErrConnDone` outcomes — the
statement is left open (the ghost open-statement count grows by one). -/
theorem C5_statement_released_only_on_success (db : DB) (u : User) (id : Int)
    (hp : db.prepFault = none) :
    (db.fault = none →
      (UserRepository.CreateUser db u).2.openStmts = db.openStmts) ∧
    (∀ e, db.fault = some e →
      (UserRepository.CreateUser db u).2.openStmts = db.openStmts + 1) ∧
    (db.fault = none → ∀ r rs, db.usersRows.filter (fun x => x.ID = id) = r :: rs →
      (UserRepository.GetUser db id).2.openStmts = db.openStmts) ∧
    (db.fault = none → db.usersRows.filter (fun x => x.ID = id) = [] →
      (UserRepository.GetUser db id).2.openStmts = db.openStmts + 1) ∧
    (∀ e, db.fault = some e →
      (UserRepository.GetUser db id).2.openStmts = db.openStmts + 1) := by
  refine ⟨?_, ?_, ?_, ?_, ?_⟩
  · intro hfa
    simp [UserRepository.CreateUser, dbPrepare, insertUserExec, stmtClose,
      hp, hfa]
  · intro e hfa
    simp [UserRepository.CreateUser, dbPrepare, insertUserExec, hp, hfa]
  · intro hfa r rs hfi
    simp [UserRepository.GetUser, dbPrepare, selectUserExec, stmtClose,
      hp, hfa, hfi]
  · intro hfa hfi
    simp [UserRepository.GetUser, dbPrepare, selectUserExec, hp, hfa, hfi]
  · intro e hfa
    cases he : decide (e = DbError.errConnDone) <;>
      simp_all [UserRepository.GetUser, dbPrepare, selectUserExec, hp, hfa]

/-- Witness for C5: on the empty fault-free store a successful create
releases its statement (open count back to 0); a get whose scan fails
with `ErrNoRows` leaves its statement open (open count 1). -/
theorem C5_statement_released_only_on_success_witness :
    (UserRepository.CreateUser emptyDB
        { ID := 0, Name := "Gil", Email := "gil@example.com", ImgURL := "" }
      ).2.openStmts = 0 ∧
    (UserRepository.GetUser emptyDB 5).2.openStmts = 1 :=
  ⟨(C5_statement_released_only_on_success emptyDB
      { ID := 0, Name := "Gil", Email := "gil@example.com", ImgURL := "" }
      5 rfl).1 rfl,
   (C5_statement_released_only_on_success emptyDB
      { ID := 0, Name := "Gil", Email := "gil@example.com", ImgURL := "" }
      5 rfl).2.2.2.1 rfl rfl⟩

/-- C6: whenever the repository insert succeeds with identifier `uid`, the
usecase returns, with no error, a `User` whose `ID` is `uid` and whose
`Name`, `Email` and `ImgURL` are those of the input payload. -/
theorem C6_usecase_create_copies_id (db : DB) (user : User) (uid : Int)
    (hsucc : (UserRepository.CreateUser db user).1 = (uid, none)) :
    (UserUsecase.CreateUser db user).1 =
      ({ ID := uid, Name := user.Name, Email := user.Email,
         ImgURL := user.ImgURL }, none) := by
  rcases hr : UserRepository.CreateUser db user with ⟨⟨v, err⟩, db1⟩
  rw [hr] at hsucc
  injection hsucc with hv herr
  subst hv
  subst herr
  simp [UserUsecase.CreateUser, hr]

/-- Witness for C6: on the empty store the insert succeeds with id 1 and
the usecase returns the payload carrying id 1. -/
theorem C6_usecase_create_copies_id_witness :
    (UserUsecase.CreateUser emptyDB
        { ID := 0, Name := "Rui", Email := "rui@example.com",
          ImgURL := "pic" }).1 =
      ({ ID := 1, Name := "Rui", Email := "rui@example.com",
         ImgURL := "pic" }, none) :=
  C6_usecase_create_copies_id emptyDB
    { ID := 0, Name := "Rui", Email := "rui@example.com", ImgURL := "pic" }
    1 rfl

/-- C7: the usecase layer is an exact pass-through for errors. Its list and
get-by-id operations are equal, as functions of the store state, to the
repository operations (value, error and resulting state alike); its create
operation returns exactly the repository's error component and resulting
state, modifying neither and calling the repository exactly once. -/
theorem C7_usecase_propagates_errors (db : DB) (user : User) (id : Int) :
    UserUsecase.GetUsers db = UserRepository.GetUsers db ∧
    UserUsecase.GetUser db id = UserRepository.GetUser db id ∧
    (UserUsecase.CreateUser db user).1.2 =
      (UserRepository.CreateUser db user).1.2 ∧
    (UserUsecase.CreateUser db user).2 =
      (UserRepository.CreateUser db user).2 := by
  refine ⟨rfl, rfl, ?_, ?_⟩ <;>
  · rcases hr : UserRepository.CreateUser db user with ⟨⟨v, err⟩, db1⟩
    cases err <;> simp [UserUsecase.CreateUser, hr]

/-- C8: the get-by-id handler answers the empty path parameter with 400 and
the "parâmetro" message, and a non-empty non-numeric parameter with 400 and
the "numérico" message; in both cases it returns the store state completely
unchanged — in particular the ghost repository-call counter is unchanged,
so no business-logic or store call is made. -/
theorem C8_getuser_param_validation (db : DB) (s : String)
    (hne : s ≠ "") (hnum : goAtoi s = none) :
    UserController.GetUser db "" =
      (⟨400, responseToJson "Essa rota espera receber um id como parâmetro"⟩,
       db) ∧
    UserController.GetUser db s =
      (⟨400, responseToJson "Essa rota espera receber um id numérico"⟩,
       db) := by
  constructor
  · rfl
  · simp [UserController.GetUser, hne, hnum]

/-- Witness for C8: the theorem applied to the empty store and the
parameter "abc". -/
theorem C8_getuser_param_validation_witness :
    UserController.GetUser emptyDB "" =
      (⟨400, responseToJson "Essa rota espera receber um id como parâmetro"⟩,
       emptyDB) ∧
    UserController.GetUser emptyDB "abc" =
      (⟨400, responseToJson "Essa rota espera receber um id numérico"⟩,
       emptyDB) :=
  C8_getuser_param_validation emptyDB "abc" (by decide) rfl

/-- C10: whenever the repository create fails (returns some error), the
identifier it returns is -1, and the usecase then returns the zero-valued
`User` (id 0, all strings empty) together with that same error — never a
copy of the input payload carrying the bogus identifier. -/
theorem C10_create_error_returns_zero_user (db : DB) (user : User)
    (e : DbError)
    (herr : (UserRepository.CreateUser db user).1.2 = some e) :
    (UserRepository.CreateUser db user).1 = (-1, some e) ∧
    (UserUsecase.CreateUser db user).1 =
      ({ ID := 0, Name := "", Email := "", ImgURL := "" }, some e) := by
  rcases hp : db.prepFault with _ | ep
  · rcases hfa : db.fault with _ | ef
    · simp [UserRepository.CreateUser, dbPrepare, insertUserExec, hp, hfa]
        at herr
    · simp only [UserRepository.CreateUser, dbPrepare, insertUserExec,
        UserUsecase.CreateUser, hp, hfa] at herr ⊢
      simp_all
  · simp only [UserRepository.CreateUser, dbPrepare,
      UserUsecase.CreateUser, hp] at herr ⊢
    simp_all

/-- Witness for C10: a create whose row execution fails with a duplicate
key violation returns (-1, the error) from the repository and the
zero-valued user with the same error from the usecase. -/
theorem C10_create_error_returns_zero_user_witness :
    (UserRepository.CreateUser
        { emptyDB with
          fault := some (DbError.generic "pq: duplicate key value") }
        { ID := 0, Name := "Li", Email := "li@example.com", ImgURL := "" }
      ).1 = (-1, some (DbError.generic "pq: duplicate key value")) ∧
    (UserUsecase.CreateUser
        { emptyDB with
          fault := some (DbError.generic "pq: duplicate key value") }
        { ID := 0, Name := "Li", Email := "li@example.com", ImgURL := "" }
      ).1 =
      ({ ID := 0, Name := "", Email := "", ImgURL := "" },
       some (DbError.generic "pq: duplicate key value")) :=
  C10_create_error_returns_zero_user
    { emptyDB with fault := some (DbError.generic "pq: duplicate key value") }
    { ID := 0, Name := "Li", Email := "li@example.com", ImgURL := "" }
    (DbError.generic "pq: duplicate key value") rfl
